import Mathlib

/-!
Shallow embedding of `src/main.py` (recovery-plus-webhook): the prescription
medication extractor, the image-preprocessing stage, the OCR stage and the
chat relay, together with theorems checking the specification claims.

Python strings are embedded as `List Char` (one entry per code point); the
text handled by the service is ASCII, over which `Char.toLower`,
`Char.isWhitespace`, `Char.isDigit` and `Char.isAlpha` agree with the Python
string methods and regex character classes used by the source.
-/

/-- A parsed medication record as built at `main.py` lines 253-257. -/
structure MedicationRecord where
  name : String
  dosage : String
  timings : List String
deriving DecidableEq

/-- Python `str.strip()` (line 192): drop whitespace at both ends. -/
def trimList (l : List Char) : List Char :=
  ((l.dropWhile Char.isWhitespace).reverse.dropWhile Char.isWhitespace).reverse

/-- Python `str.lower()` on ASCII text (line 196). -/
def lowerList (l : List Char) : List Char := l.map Char.toLower

/-- Python substring test `needle in hay` (candidacy and frequency checks). -/
def containsSub (needle : List Char) : List Char → Bool
  | [] => needle.isEmpty
  | c :: t => needle.isPrefixOf (c :: t) || containsSub needle t

/-- Python `str.split()` with no separator (line 222): split on whitespace
runs, producing no empty tokens. -/
def wordsAux : List Char → List Char → List (List Char)
  | acc, [] => if acc.isEmpty then [] else [acc.reverse]
  | acc, c :: t =>
    if Char.isWhitespace c then
      if acc.isEmpty then wordsAux [] t else acc.reverse :: wordsAux [] t
    else wordsAux (c :: acc) t

def wordsList (l : List Char) : List (List Char) := wordsAux [] l

/-- Python `parsed_text.split("\n")` (line 156): split at every newline
character, keeping empty pieces. -/
def splitNl : List Char → List Char → List (List Char)
  | acc, [] => [acc.reverse]
  | acc, c :: t => if c = '\n' then acc.reverse :: splitNl [] t else splitNl (c :: acc) t

/-- One dosage unit `mg|ml|mcg|g` as a literal prefix (alternation order of the
regex at line 210, applied to the already-lowercased line). -/
def unitPrefixB (l : List Char) : Bool :=
  List.isPrefixOf ['m', 'g'] l || List.isPrefixOf ['m', 'l'] l ||
  List.isPrefixOf ['m', 'c', 'g'] l || List.isPrefixOf ['g'] l

/-- `\s?(mg|ml|mcg|g)` anchored at the head of `l` (line 210). -/
def spaceUnitB (l : List Char) : Bool :=
  unitPrefixB l ||
  (match l with
   | c :: t => Char.isWhitespace c && unitPrefixB t
   | [] => false)

/-- `\d+\s?(mg|ml|mcg|g)` anchored at the head of `l` (line 210). -/
def dMatch : List Char → Bool
  | [] => false
  | c :: t => c.isDigit && (spaceUnitB t || dMatch t)

/-- `re.search(r"\d+\s?(mg|ml|mcg|g)", lower_line)` as a Boolean (line 210):
some suffix position carries an anchored match. -/
def dosageUnitSearch : List Char → Bool
  | [] => false
  | c :: t => dMatch (c :: t) || dosageUnitSearch t

/-- The medicine-form keywords of lines 186-189. -/
def medicine_keywords : List String :=
  ["tab", "tablet", "cap", "capsule", "syr", "syrup",
   "inj", "injection", "drop", "drops", "cream", "ointment"]

/-- The frequency table of lines 165-178, in dictionary (insertion) order. -/
def frequency_patterns : List (String × List String) :=
  [("1-0-1", ["08:00", "20:00"]),
   ("1-1-1", ["08:00", "14:00", "20:00"]),
   ("0-0-1", ["20:00"]),
   ("0-1-1", ["14:00", "20:00"]),
   ("1-1-0", ["08:00", "14:00"]),
   ("od", ["08:00"]),
   ("bd", ["08:00", "20:00"]),
   ("tds", ["08:00", "14:00", "20:00"]),
   ("hs", ["20:00"]),
   ("once", ["08:00"]),
   ("twice", ["08:00", "20:00"]),
   ("daily", ["08:00"])]

/-- The candidacy filter of lines 198-214: medicine keyword, frequency token,
or a number-plus-unit occurrence, all tested on the lowered line. -/
def isMedicineLine (lower : List Char) : Bool :=
  medicine_keywords.any (fun k => containsSub k.toList lower) ||
  frequency_patterns.any (fun kv => containsSub kv.1.toList lower) ||
  dosageUnitSearch lower

/-- Case-insensitive literal prefix match (for `re.IGNORECASE` at line 217);
returns the matched original-case characters and the rest. -/
def prefixCI : List Char → List Char → Option (List Char × List Char)
  | [], l => some ([], l)
  | _ :: _, [] => none
  | p :: ps, c :: t =>
    if c.toLower = p then
      match prefixCI ps t with
      | some (m, r) => some (c :: m, r)
      | none => none
    else none

/-- `(mg|ml|mcg|g)` with `re.IGNORECASE` (line 217), alternation order kept. -/
def unitCI (l : List Char) : Option (List Char × List Char) :=
  (prefixCI ['m', 'g'] l).orElse fun _ =>
  (prefixCI ['m', 'l'] l).orElse fun _ =>
  (prefixCI ['m', 'c', 'g'] l).orElse fun _ =>
  prefixCI ['g'] l

/-- `\s?` then a unit, greedy: the whitespace branch first, then backtrack. -/
def spaceUnitCI (l : List Char) : Option (List Char) :=
  (match l with
   | c :: t =>
     if Char.isWhitespace c then
       match unitCI t with
       | some (u, _) => some (c :: u)
       | none => none
     else none
   | [] => none).orElse fun _ =>
    match unitCI l with
    | some (u, _) => some u
    | none => none

/-- Exactly `k` digits from the head of `l`. -/
def digitsPrefixN : Nat → List Char → Option (List Char × List Char)
  | 0, l => some ([], l)
  | _ + 1, [] => none
  | k + 1, c :: t =>
    if c.isDigit then
      match digitsPrefixN k t with
      | some (ds, r) => some (c :: ds, r)
      | none => none
    else none

/-- `\d{1,4}\s?(mg|ml|mcg|g)` anchored: greedy digit count from `k` down to 1
(the dosage regex of line 217). -/
def dosageAtK : Nat → List Char → Option (List Char)
  | 0, _ => none
  | k + 1, l =>
    (match digitsPrefixN (k + 1) l with
     | some (ds, rest) =>
       match spaceUnitCI rest with
       | some su => some (ds ++ su)
       | none => none
     | none => none).orElse fun _ => dosageAtK k l

/-- `re.search` of the dosage regex (line 217): leftmost match, group 1. -/
def dosageSearch : List Char → Option (List Char)
  | [] => none
  | c :: t =>
    match dosageAtK 4 (c :: t) with
    | some m => some m
    | none => dosageSearch t

def isNameChar (c : Char) : Bool := c.isAlpha || c.isDigit || c = '-'

/-- Truthiness of `re.match(r"[A-Za-z][A-Za-z0-9\-]{2,30}", t)` (line 226):
a leading letter followed by at least two name-class characters. -/
def nameTokenMatch (t : List Char) : Bool :=
  match t with
  | a :: b :: c :: _ => a.isAlpha && isNameChar b && isNameChar c
  | _ => false

/-- Regex word character `\w` for the `\b` boundaries of line 182. -/
def isWordChar (c : Char) : Bool := c.isAlpha || c.isDigit || c = '_'

/-- Count of leading name-class characters, capped at the first argument. -/
def takeClassRun : Nat → List Char → Nat
  | 0, _ => 0
  | _ + 1, [] => 0
  | m + 1, c :: t => if isNameChar c then takeClassRun m t + 1 else 0

/-- `\b` after the group: end of input or a non-word character. -/
def boundaryAfter : List Char → Bool
  | [] => true
  | c :: _ => !isWordChar c

/-- Greedy `{2,30}` with a trailing `\b`: the largest `k` at most the cap with
`k` at least 2 whose remainder starts at a word boundary. -/
def findK (t : List Char) : Nat → Option Nat
  | 0 => none
  | 1 => none
  | k + 2 => if boundaryAfter (t.drop (k + 2)) then some (k + 2) else findK t (k + 1)

/-- One attempt of `\b([A-Za-z][A-Za-z0-9\-]{2,30})\b` at the current
position; `prev` is the character before the position, `none` at the start. -/
def nameOnlyAt (prev : Option Char) (l : List Char) : Option (List Char) :=
  match l with
  | [] => none
  | c :: t =>
    if c.isAlpha && (match prev with | none => true | some p => !isWordChar p) then
      match findK t (takeClassRun 30 t) with
      | some k => some (c :: t.take k)
      | none => none
    else none

/-- `medicine_name_only_pattern.search(line_clean)` (lines 181-184, 230-232):
leftmost word-boundary name match. -/
def nameOnlySearch (prev : Option Char) : List Char → Option (List Char)
  | [] => none
  | c :: t =>
    match nameOnlyAt prev (c :: t) with
    | some m => some m
    | none => nameOnlySearch (some c) t

/-- Name extraction of lines 220-232: the first whitespace token that is not a
medicine keyword and matches the name regex; otherwise the first word-boundary
name found anywhere in the line. -/
def findName (lc : List Char) : Option (List Char) :=
  match (wordsList lc).find? (fun t =>
      !(medicine_keywords.any (fun k => k.toList == lowerList t)) && nameTokenMatch t) with
  | some t => some t
  | none => nameOnlySearch none lc

/-- One-digit-hour branch `\d:[0-5]\d` of the clock regex (line 245). -/
def clockAt1 (l : List Char) : Option (List Char × List Char) :=
  match l with
  | a :: ':' :: c :: d :: r =>
    if a.isDigit && decide ('0' ≤ c) && decide (c ≤ '5') && d.isDigit then
      some ([a, ':', c, d], r)
    else none
  | _ => none

/-- `([0-2]?\d:[0-5]\d)` anchored (line 245): greedy two-digit hour first,
backtracking to the one-digit-hour branch. -/
def clockAt (l : List Char) : Option (List Char × List Char) :=
  match l with
  | a :: b :: ':' :: c :: d :: r =>
    if decide ('0' ≤ a) && decide (a ≤ '2') && b.isDigit &&
        decide ('0' ≤ c) && decide (c ≤ '5') && d.isDigit then
      some ([a, b, ':', c, d], r)
    else clockAt1 l
  | _ => clockAt1 l

/-- `re.findall` of the clock regex (line 245): scan left to right, collect
non-overlapping matches.  The fuel starts at the list length; each step
consumes at least one character, so the fuel never runs out early. -/
def clockFindAux : Nat → List Char → List String
  | 0, _ => []
  | _ + 1, [] => []
  | fuel + 1, c :: t =>
    match clockAt (c :: t) with
    | some (m, r) => String.mk m :: clockFindAux fuel r
    | none => clockFindAux fuel t

def clockFind (l : List Char) : List String := clockFindAux l.length l

/-- The frequency loop of lines 238-242: the first table entry whose key
occurs as a substring of the lowered line, else no times. -/
def lookupFreq : List (String × List String) → List Char → List String
  | [], _ => []
  | kv :: rest, lower =>
    if containsSub kv.1.toList lower then kv.2 else lookupFreq rest lower

def freqTimes (lower : List Char) : List String := lookupFreq frequency_patterns lower

/-- Steps 4-6 of lines 237-251: frequency times, overridden by explicit clock
times when any are found, with the default time list when both are absent. -/
def computeTimes (lc : List Char) : List String :=
  if (clockFind lc).isEmpty then
    if (freqTimes (lowerList lc)).isEmpty then ["08:00"] else freqTimes (lowerList lc)
  else clockFind lc

/-- `dosage_match.group(1) if dosage_match else ""` (lines 217-218). -/
def extractDosage (lc : List Char) : List Char :=
  match dosageSearch lc with
  | some d => d
  | none => []

/-- One iteration of the per-line loop of lines 191-257. -/
def extractLine (line : List Char) : Option MedicationRecord :=
  if (trimList line).length < 2 then none
  else if !(isMedicineLine (lowerList (trimList line))) then none
  else
    match findName (trimList line) with
    | none => none
    | some nm =>
      some ⟨String.mk (trimList nm),
            String.mk (trimList (extractDosage (trimList line))),
            computeTimes (trimList line)⟩

/-- The line loop over the split text (lines 191-257). -/
def extractFromLines (ls : List (List Char)) : List MedicationRecord :=
  ls.filterMap extractLine

/-- The whole medication extractor of lines 155-257 on one OCR text blob. -/
def extractMedications (text : String) : List MedicationRecord :=
  extractFromLines (splitNl [] text.toList)

/-! ### The OCR stage (lines 130-152)

The third-party call is abstracted by an oracle giving the outcome of the
`n`-th OCR request: a transport error (a raised exception), or the list of
`ParsedText` fields of the response's `ParsedResults`.  The handler issues
exactly one request (line 142); the embedding records the number of requests
made so that retry behaviour is visible in the model. -/

/-- Outcome of the OCR stage: HTTP error status with body, or the parsed
text.  A transport exception propagates to the outer handler of lines
262-264, which answers 500 with the exception text; a missing or empty
`ParsedResults` answers 400 at line 150. -/
def ocrStage (oracle : Nat → Except String (List String)) :
    Nat × Except (Nat × String) String :=
  match oracle 0 with
  | Except.error e => (1, Except.error (500, e))
  | Except.ok [] => (1, Except.error (400, "Could not parse image."))
  | Except.ok (t :: _) => (1, Except.ok t)

/-! ### The image-preprocessing stage (lines 80-129)

The PIL operations are external collaborators; they are abstracted as
fallible step functions over an abstract image type, composed in the order of
the source.  The surrounding `try`/`except` keeps the original bytes on any
error (lines 128-129): `image_bytes` is only reassigned at line 127, the last
statement of the `try` block. -/

structure ImageOps (Img : Type) where
  decode : List Nat → Except String Img
  grayscale : Img → Except String Img
  autocontrast : Img → Except String Img
  medianFilter : Img → Except String Img
  unsharpMask : Img → Except String Img
  threshold : Img → Except String Img
  encodePNG : Img → Except String (List Nat)

/-- The body of the `try` block of lines 81-127, as an `Except` chain. -/
def preprocessPipeline {Img : Type} (ops : ImageOps Img) (bytes : List Nat) :
    Except String (List Nat) := do
  let i0 ← ops.decode bytes
  let i1 ← ops.grayscale i0
  let i2 ← ops.autocontrast i1
  let i3 ← ops.medianFilter i2
  let i4 ← ops.unsharpMask i3
  let i5 ← ops.threshold i4
  ops.encodePNG i5

/-- Lines 80-129 as a whole: the preprocessed bytes, or the original bytes
unchanged when any step of the pipeline raises. -/
def preprocessStage {Img : Type} (ops : ImageOps Img) (bytes : List Nat) : List Nat :=
  match preprocessPipeline ops bytes with
  | Except.ok b => b
  | Except.error _ => bytes

/-! ### The chat relay `/groq-webhook` (lines 39-71) -/

structure ChatRequest where
  sessionId : String
  message : String
deriving DecidableEq

/-- An HTTP response: a streamed plain-text body, or a JSON object body with
a status code. -/
inductive HttpResponse where
  | streaming (chunks : List String)
  | json (status : Nat) (body : List (String × String))
deriving DecidableEq

/-- Process-wide configuration fixed at startup (lines 17-37); the handler
has no other local state. -/
structure AppState where
  groq_api_key : String
  frontend_url : String
deriving DecidableEq

/-- The two-message exchange built at lines 57-60. -/
def chatMessages (userMessage : String) : List (String × String) :=
  [("system", "You are a friendly recovery assistant. Always reply politely and supportively."),
   ("user", userMessage)]

/-- `stream_generator` (lines 47-50): forward each chunk whose content field
is present and non-empty, in order. -/
def stream_generator (chunks : List (Option String)) : List String :=
  chunks.filterMap fun c =>
    match c with
    | some s => if s = "" then none else some s
    | none => none

/-- The `/groq-webhook` handler (lines 52-71).  `upstream` abstracts the
chat-completion call; the result carries the response, the number of upstream
calls made, and the (unchanged) process state. -/
def groq_webhook (st : AppState)
    (upstream : List (String × String) → Except String (List (Option String)))
    (req : ChatRequest) : HttpResponse × Nat × AppState :=
  match upstream (chatMessages req.message) with
  | Except.ok chunks => (HttpResponse.streaming (stream_generator chunks), 1, st)
  | Except.error _ =>
    (HttpResponse.json 500 [("error", "An error occurred while processing your request.")], 1, st)

/-- An `ImageOps` instance whose decode step raises, standing for a corrupt
uploaded image. -/
def corruptOps : ImageOps Unit :=
  ⟨fun _ => Except.error "cannot identify image file",
   fun _ => Except.ok (), fun _ => Except.ok (), fun _ => Except.ok (),
   fun _ => Except.ok (), fun _ => Except.ok (), fun _ => Except.ok []⟩

/-! ## Helper lemmas -/

/-- Whenever a line produces a record, its timings are `computeTimes` of the
stripped line (lines 237-257 compute the record fields independently). -/
theorem extractLine_timings {line : List Char} {r : MedicationRecord}
    (h : extractLine line = some r) : r.timings = computeTimes (trimList line) := by
  unfold extractLine at h
  split at h
  · exact Option.noConfusion h
  · split at h
    · exact Option.noConfusion h
    · split at h
      · exact Option.noConfusion h
      · cases h
        rfl

/-- `computeTimes` never yields the empty list: the branch of line 250-251
replaces an empty result with the default time. -/
theorem computeTimes_ne_nil (lc : List Char) : computeTimes lc ≠ [] := by
  unfold computeTimes
  by_cases h1 : (clockFind lc).isEmpty = true
  · rw [if_pos h1]
    by_cases h2 : (freqTimes (lowerList lc)).isEmpty = true
    · rw [if_pos h2]
      simp
    · rw [if_neg h2]
      simpa [List.isEmpty_iff] using h2
  · rw [if_neg h1]
    simpa [List.isEmpty_iff] using h1

/-- The frequency loop takes a table entry whose key occurs in the line. -/
theorem lookupFreq_cons_pos {kv : String × List String} {rest : List (String × List String)}
    {lower : List Char} (h : containsSub kv.1.toList lower = true) :
    lookupFreq (kv :: rest) lower = kv.2 := by
  conv_lhs => unfold lookupFreq
  rw [h]
  simp

/-- The frequency loop skips a table entry whose key does not occur. -/
theorem lookupFreq_cons_neg {kv : String × List String} {rest : List (String × List String)}
    {lower : List Char} (h : containsSub kv.1.toList lower = false) :
    lookupFreq (kv :: rest) lower = lookupFreq rest lower := by
  conv_lhs => unfold lookupFreq
  rw [h]
  simp

/-! ## Claim theorems -/

/-- Claim C1, counterexample: the extractor performs no deduplication.  On a
text whose two lines name the same drug in different letter case, the output
contains two records whose names are equal under case-insensitive comparison,
so the claimed invariant fails and no record is ever skipped. -/
theorem claim1_counterexample :
    extractMedications "Tab Paracetamol 500mg\nTab PARACETAMOL 500mg" =
      [⟨"Paracetamol", "500mg", ["08:00"]⟩, ⟨"PARACETAMOL", "500mg", ["08:00"]⟩] ∧
    lowerList "Paracetamol".toList = lowerList "PARACETAMOL".toList := by decide

/-- Claim C1, amended: the loop of lines 191-257 appends every extracted
record unconditionally — any two lines that each yield a record contribute
both records, in order, regardless of any case-insensitive name clash. -/
theorem claim1_no_dedup (l1 l2 : List Char) (r1 r2 : MedicationRecord)
    (h1 : extractLine l1 = some r1) (h2 : extractLine l2 = some r2) :
    extractFromLines [l1, l2] = [r1, r2] := by
  unfold extractFromLines
  rw [List.filterMap_cons_some h1, List.filterMap_cons_some h2]
  simp

/-- Claim C1, witness: the amended statement applied to the two clashing
paracetamol lines. -/
theorem claim1_no_dedup_witness :
    extractFromLines ["Tab Paracetamol 500mg".toList, "Tab PARACETAMOL 500mg".toList] =
      [⟨"Paracetamol", "500mg", ["08:00"]⟩, ⟨"PARACETAMOL", "500mg", ["08:00"]⟩] :=
  claim1_no_dedup _ _ _ _ (by decide) (by decide)

/-- Claim C2, counterexample: a line containing `1-0-1` yields the clock-time
list `["08:00", "20:00"]` from the table of lines 165-178, not the claimed
time-of-day labels `["Morning", "Night"]`. -/
theorem claim2_counterexample :
    extractLine ("Tab Paracetamol 500mg 1-0-1".toList) =
      some ⟨"Paracetamol", "500mg", ["08:00", "20:00"]⟩ ∧
    (["08:00", "20:00"] : List String) ≠ ["Morning", "Night"] := by decide

/-- Claim C2, amended: the frequency shorthands map to clock-time lists, not
time-of-day labels.  On a record-producing line with no explicit clock time:
`1-0-1` gives `["08:00", "20:00"]`; `1-1-1` gives `["08:00", "14:00",
"20:00"]`; `0-0-1` and `HS` give `["20:00"]`; `BD` gives `["08:00",
"20:00"]` — each shorthand applying when no earlier key of the table of
lines 165-178 occurs in the lowered line. -/
theorem claim2_clock_times (line : List Char) (r : MedicationRecord)
    (hr : extractLine line = some r)
    (hclock : clockFind (trimList line) = []) :
    (containsSub ("1-0-1".toList) (lowerList (trimList line)) = true →
        r.timings = ["08:00", "20:00"]) ∧
    (containsSub ("1-0-1".toList) (lowerList (trimList line)) = false →
     containsSub ("1-1-1".toList) (lowerList (trimList line)) = true →
        r.timings = ["08:00", "14:00", "20:00"]) ∧
    (containsSub ("1-0-1".toList) (lowerList (trimList line)) = false →
     containsSub ("1-1-1".toList) (lowerList (trimList line)) = false →
     containsSub ("0-0-1".toList) (lowerList (trimList line)) = true →
        r.timings = ["20:00"]) ∧
    (containsSub ("1-0-1".toList) (lowerList (trimList line)) = false →
     containsSub ("1-1-1".toList) (lowerList (trimList line)) = false →
     containsSub ("0-0-1".toList) (lowerList (trimList line)) = false →
     containsSub ("0-1-1".toList) (lowerList (trimList line)) = false →
     containsSub ("1-1-0".toList) (lowerList (trimList line)) = false →
     containsSub ("od".toList) (lowerList (trimList line)) = false →
     containsSub ("bd".toList) (lowerList (trimList line)) = false →
     containsSub ("tds".toList) (lowerList (trimList line)) = false →
     containsSub ("hs".toList) (lowerList (trimList line)) = true →
        r.timings = ["20:00"]) ∧
    (containsSub ("1-0-1".toList) (lowerList (trimList line)) = false →
     containsSub ("1-1-1".toList) (lowerList (trimList line)) = false →
     containsSub ("0-0-1".toList) (lowerList (trimList line)) = false →
     containsSub ("0-1-1".toList) (lowerList (trimList line)) = false →
     containsSub ("1-1-0".toList) (lowerList (trimList line)) = false →
     containsSub ("od".toList) (lowerList (trimList line)) = false →
     containsSub ("bd".toList) (lowerList (trimList line)) = true →
        r.timings = ["08:00", "20:00"]) := by
  have ht := extractLine_timings hr
  refine ⟨?_, ?_, ?_, ?_, ?_⟩
  · intro k1
    have hf : freqTimes (lowerList (trimList line)) = ["08:00", "20:00"] := by
      unfold freqTimes frequency_patterns
      rw [lookupFreq_cons_pos k1]
    rw [ht]
    unfold computeTimes
    rw [hclock, hf]
    simp
  · intro k1 k2
    have hf : freqTimes (lowerList (trimList line)) = ["08:00", "14:00", "20:00"] := by
      unfold freqTimes frequency_patterns
      rw [lookupFreq_cons_neg k1, lookupFreq_cons_pos k2]
    rw [ht]
    unfold computeTimes
    rw [hclock, hf]
    simp
  · intro k1 k2 k3
    have hf : freqTimes (lowerList (trimList line)) = ["20:00"] := by
      unfold freqTimes frequency_patterns
      rw [lookupFreq_cons_neg k1, lookupFreq_cons_neg k2, lookupFreq_cons_pos k3]
    rw [ht]
    unfold computeTimes
    rw [hclock, hf]
    simp
  · intro k1 k2 k3 k4 k5 k6 k7 k8 k9
    have hf : freqTimes (lowerList (trimList line)) = ["20:00"] := by
      unfold freqTimes frequency_patterns
      rw [lookupFreq_cons_neg k1, lookupFreq_cons_neg k2, lookupFreq_cons_neg k3,
          lookupFreq_cons_neg k4, lookupFreq_cons_neg k5, lookupFreq_cons_neg k6,
          lookupFreq_cons_neg k7, lookupFreq_cons_neg k8, lookupFreq_cons_pos k9]
    rw [ht]
    unfold computeTimes
    rw [hclock, hf]
    simp
  · intro k1 k2 k3 k4 k5 k6 k7
    have hf : freqTimes (lowerList (trimList line)) = ["08:00", "20:00"] := by
      unfold freqTimes frequency_patterns
      rw [lookupFreq_cons_neg k1, lookupFreq_cons_neg k2, lookupFreq_cons_neg k3,
          lookupFreq_cons_neg k4, lookupFreq_cons_neg k5, lookupFreq_cons_neg k6,
          lookupFreq_cons_pos k7]
    rw [ht]
    unfold computeTimes
    rw [hclock, hf]
    simp

/-- Claim C2, witness: the `1-0-1` case of the amended statement on a
concrete line. -/
theorem claim2_clock_times_witness :
    (⟨"Paracetamol", "500mg", ["08:00", "20:00"]⟩ : MedicationRecord).timings =
      ["08:00", "20:00"] :=
  (claim2_clock_times ("Tab Paracetamol 500mg 1-0-1".toList) _
    (by decide) (by decide)).1 (by decide)

/-- Claim C3, counterexample: on a medication line with no timing evidence
the record's timings are `["08:00"]`, not the claimed sentinel
`["As directed"]` — no such sentinel exists anywhere in the code. -/
theorem claim3_counterexample :
    extractLine ("Tab Paracetamol 500mg".toList) =
      some ⟨"Paracetamol", "500mg", ["08:00"]⟩ ∧
    (["08:00"] : List String) ≠ ["As directed"] := by decide

/-- Claim C3, amended: when no frequency key and no explicit clock time
matched the line, the record's timings are the default `["08:00"]`
(lines 249-251), not a sentinel string. -/
theorem claim3_default_time (line : List Char) (r : MedicationRecord)
    (hr : extractLine line = some r)
    (hfreq : freqTimes (lowerList (trimList line)) = [])
    (hclock : clockFind (trimList line) = []) :
    r.timings = ["08:00"] := by
  rw [extractLine_timings hr]
  simp [computeTimes, hclock, hfreq]

/-- Claim C3, witness: the amended statement on a concrete timing-free line. -/
theorem claim3_default_time_witness :
    (⟨"Paracetamol", "500mg", ["08:00"]⟩ : MedicationRecord).timings = ["08:00"] :=
  claim3_default_time ("Tab Paracetamol 500mg".toList) _
    (by decide) (by decide) (by decide)

/-- Claim C4 (confirmed): a line containing no dosage-unit token adjacent to
a number, no medicine-form keyword and no frequency token fails the candidacy
filter of lines 198-214 and produces no record. -/
theorem claim4_candidacy_filter (line : List Char)
    (hkw : ∀ k ∈ medicine_keywords,
        containsSub k.toList (lowerList (trimList line)) = false)
    (hfreq : ∀ kv ∈ frequency_patterns,
        containsSub kv.1.toList (lowerList (trimList line)) = false)
    (hdos : dosageUnitSearch (lowerList (trimList line)) = false) :
    extractLine line = none := by
  unfold extractLine
  split
  · rfl
  · have h1 : (medicine_keywords.any fun k =>
        containsSub k.toList (lowerList (trimList line))) = false := by
      rw [List.any_eq_false]
      intro k hk hc
      exact Bool.noConfusion ((hkw k hk).symm.trans hc)
    have h2 : (frequency_patterns.any fun kv =>
        containsSub kv.1.toList (lowerList (trimList line))) = false := by
      rw [List.any_eq_false]
      intro kv hkv hc
      exact Bool.noConfusion ((hfreq kv hkv).symm.trans hc)
    have hm : isMedicineLine (lowerList (trimList line)) = false := by
      unfold isMedicineLine
      rw [h1, h2, hdos]
      rfl
    simp [hm]

/-- Claim C4, witness: a header-like line with no unit, keyword or frequency
token yields no record. -/
theorem claim4_candidacy_filter_witness :
    extractLine ("Patient Name John".toList) = none :=
  claim4_candidacy_filter _ (by decide) (by decide) (by decide)

/-- Claim C5, counterexample: the abbreviations are matched as plain
substrings, not whole words.  In `Tab Abdomen 500mg` the only occurrence of
`bd` is inside the longer word `Abdomen`, yet the record receives the BD
times `["08:00", "20:00"]`; in `Tab Calcium 500mg months` the only
occurrence of `hs` is inside the longer word `months`, yet the record
receives the HS times `["20:00"]` — in both cases instead of the no-match
default `["08:00"]`. -/
theorem claim5_counterexample :
    (extractLine ("Tab Abdomen 500mg".toList) =
      some ⟨"Abdomen", "500mg", ["08:00", "20:00"]⟩ ∧
     containsSub ("bd".toList) (lowerList (trimList "Tab Abdomen 500mg".toList)) = true) ∧
    (extractLine ("Tab Calcium 500mg months".toList) =
      some ⟨"Calcium", "500mg", ["20:00"]⟩ ∧
     containsSub ("hs".toList) (lowerList (trimList "Tab Calcium 500mg months".toList)) = true) := by
  decide

/-- Claim C5, amended: each of the abbreviations OD, BD, TDS and HS is
recognised by case-insensitive substring containment (line 240), with no
word-boundary check: any lowered line containing the abbreviation — inside a
longer word or not — and none of the earlier keys of the table of lines
165-178 receives that abbreviation's times (`od` gives `["08:00"]`, `bd`
gives `["08:00", "20:00"]`, `tds` gives `["08:00", "14:00", "20:00"]`, `hs`
gives `["20:00"]`). -/
theorem claim5_substring_match (lower : List Char) :
    (containsSub ("1-0-1".toList) lower = false →
     containsSub ("1-1-1".toList) lower = false →
     containsSub ("0-0-1".toList) lower = false →
     containsSub ("0-1-1".toList) lower = false →
     containsSub ("1-1-0".toList) lower = false →
     containsSub ("od".toList) lower = true →
        freqTimes lower = ["08:00"]) ∧
    (containsSub ("1-0-1".toList) lower = false →
     containsSub ("1-1-1".toList) lower = false →
     containsSub ("0-0-1".toList) lower = false →
     containsSub ("0-1-1".toList) lower = false →
     containsSub ("1-1-0".toList) lower = false →
     containsSub ("od".toList) lower = false →
     containsSub ("bd".toList) lower = true →
        freqTimes lower = ["08:00", "20:00"]) ∧
    (containsSub ("1-0-1".toList) lower = false →
     containsSub ("1-1-1".toList) lower = false →
     containsSub ("0-0-1".toList) lower = false →
     containsSub ("0-1-1".toList) lower = false →
     containsSub ("1-1-0".toList) lower = false →
     containsSub ("od".toList) lower = false →
     containsSub ("bd".toList) lower = false →
     containsSub ("tds".toList) lower = true →
        freqTimes lower = ["08:00", "14:00", "20:00"]) ∧
    (containsSub ("1-0-1".toList) lower = false →
     containsSub ("1-1-1".toList) lower = false →
     containsSub ("0-0-1".toList) lower = false →
     containsSub ("0-1-1".toList) lower = false →
     containsSub ("1-1-0".toList) lower = false →
     containsSub ("od".toList) lower = false →
     containsSub ("bd".toList) lower = false →
     containsSub ("tds".toList) lower = false →
     containsSub ("hs".toList) lower = true →
        freqTimes lower = ["20:00"]) := by
  refine ⟨?_, ?_, ?_, ?_⟩
  · intro k1 k2 k3 k4 k5 k6
    unfold freqTimes frequency_patterns
    rw [lookupFreq_cons_neg k1, lookupFreq_cons_neg k2, lookupFreq_cons_neg k3,
        lookupFreq_cons_neg k4, lookupFreq_cons_neg k5, lookupFreq_cons_pos k6]
  · intro k1 k2 k3 k4 k5 k6 k7
    unfold freqTimes frequency_patterns
    rw [lookupFreq_cons_neg k1, lookupFreq_cons_neg k2, lookupFreq_cons_neg k3,
        lookupFreq_cons_neg k4, lookupFreq_cons_neg k5, lookupFreq_cons_neg k6,
        lookupFreq_cons_pos k7]
  · intro k1 k2 k3 k4 k5 k6 k7 k8
    unfold freqTimes frequency_patterns
    rw [lookupFreq_cons_neg k1, lookupFreq_cons_neg k2, lookupFreq_cons_neg k3,
        lookupFreq_cons_neg k4, lookupFreq_cons_neg k5, lookupFreq_cons_neg k6,
        lookupFreq_cons_neg k7, lookupFreq_cons_pos k8]
  · intro k1 k2 k3 k4 k5 k6 k7 k8 k9
    unfold freqTimes frequency_patterns
    rw [lookupFreq_cons_neg k1, lookupFreq_cons_neg k2, lookupFreq_cons_neg k3,
        lookupFreq_cons_neg k4, lookupFreq_cons_neg k5, lookupFreq_cons_neg k6,
        lookupFreq_cons_neg k7, lookupFreq_cons_neg k8, lookupFreq_cons_pos k9]

/-- Claim C5, witness: all four abbreviation cases of the amended statement
on concrete lowered lines — `od` inside `blood`, `bd` inside `abdomen`, a
bare `tds` token, and `hs` inside `months`. -/
theorem claim5_substring_match_witness :
    freqTimes (lowerList ("Syrup Blood 10ml".toList)) = ["08:00"] ∧
    freqTimes (lowerList ("Tab Abdomen 500mg".toList)) = ["08:00", "20:00"] ∧
    freqTimes (lowerList ("Cap Amoxicillin 250mg TDS".toList)) = ["08:00", "14:00", "20:00"] ∧
    freqTimes (lowerList ("Tab Calcium 500mg months".toList)) = ["20:00"] :=
  ⟨(claim5_substring_match _).1 (by decide) (by decide) (by decide) (by decide)
      (by decide) (by decide),
   (claim5_substring_match _).2.1 (by decide) (by decide) (by decide) (by decide)
      (by decide) (by decide) (by decide),
   (claim5_substring_match _).2.2.1 (by decide) (by decide) (by decide) (by decide)
      (by decide) (by decide) (by decide) (by decide),
   (claim5_substring_match _).2.2.2 (by decide) (by decide) (by decide) (by decide)
      (by decide) (by decide) (by decide) (by decide) (by decide)⟩

/-- Claim C6 (confirmed): when the clock regex of line 245 finds at least one
`H:MM`/`HH:MM` token in the stripped line, the record's timings are exactly
the matched tokens, verbatim and in order of occurrence, overriding any
frequency-derived times (lines 244-247). -/
theorem claim6_clock_override (line : List Char) (r : MedicationRecord)
    (hr : extractLine line = some r)
    (hclock : clockFind (trimList line) ≠ []) :
    r.timings = clockFind (trimList line) := by
  rw [extractLine_timings hr]
  have h : (clockFind (trimList line)).isEmpty = false :=
    List.isEmpty_eq_false.mpr hclock
  unfold computeTimes
  rw [h]
  simp

/-- Claim C6, witness: a line carrying two explicit clock times whose record
times are exactly those two tokens. -/
theorem claim6_clock_override_witness :
    (⟨"Paracetamol", "500mg", ["09:00", "21:30"]⟩ : MedicationRecord).timings =
      clockFind (trimList ("Tab Paracetamol 500mg 09:00 21:30".toList)) :=
  claim6_clock_override _ _ (by decide) (by decide)

/-- Claim C7, counterexample: the handler issues exactly one OCR request and
never retries.  With an oracle whose first response has no parsed results but
whose second would succeed, the code still answers 400 after a single call —
under the claimed 4-attempt retry, the second attempt would have produced the
text. -/
theorem claim7_counterexample :
    ocrStage (fun n => if n == 0 then Except.ok [] else Except.ok ["Tab Paracetamol 500mg"]) =
      (1, Except.error (400, "Could not parse image.")) := rfl

/-- Claim C7, amended: the OCR request of line 142 is made exactly once, with
no retry and no pause; a transport error propagates to the outer handler as a
500, a response without parsed results yields HTTP 400 with body error
`Could not parse image.` (line 150), and otherwise the first parsed-text
field is the extracted text. -/
theorem claim7_single_call (oracle : Nat → Except String (List String)) :
    (ocrStage oracle).1 = 1 ∧
    (∀ e, oracle 0 = Except.error e →
        (ocrStage oracle).2 = Except.error (500, e)) ∧
    (oracle 0 = Except.ok [] →
        (ocrStage oracle).2 = Except.error (400, "Could not parse image.")) ∧
    (∀ t ts, oracle 0 = Except.ok (t :: ts) → (ocrStage oracle).2 = Except.ok t) := by
  refine ⟨?_, ?_, ?_, ?_⟩
  · cases h : oracle 0 with
    | error e => simp [ocrStage, h]
    | ok l => cases l <;> simp [ocrStage, h]
  · intro e he
    simp [ocrStage, he]
  · intro h
    simp [ocrStage, h]
  · intro t ts h
    simp [ocrStage, h]

/-- Claim C7, witness: the amended statement on an oracle whose only answer
has no parsed results. -/
theorem claim7_single_call_witness :
    (ocrStage fun _ => Except.ok []).1 = 1 ∧
    (ocrStage fun _ => Except.ok []).2 = Except.error (400, "Could not parse image.") :=
  ⟨(claim7_single_call _).1, (claim7_single_call _).2.2.1 rfl⟩

/-- Claim C8 (confirmed): if any step of the preprocessing pipeline of lines
81-127 (decode, grayscale, contrast, filtering, thresholding, re-encode)
raises, the stage returns the original uploaded bytes unchanged and the
request proceeds with them (lines 128-129); `image_bytes` is reassigned only
by the final statement of the `try` block. -/
theorem claim8_preprocess_fallback {Img : Type} (ops : ImageOps Img)
    (bytes : List Nat) (e : String)
    (h : preprocessPipeline ops bytes = Except.error e) :
    preprocessStage ops bytes = bytes := by
  unfold preprocessStage
  rw [h]

/-- Claim C8, witness: a corrupt image whose decode step raises leaves the
byte payload unchanged. -/
theorem claim8_preprocess_fallback_witness :
    preprocessStage corruptOps [137, 80, 78, 71] = [137, 80, 78, 71] :=
  claim8_preprocess_fallback corruptOps [137, 80, 78, 71]
    "cannot identify image file" rfl

/-- Claim C9 (confirmed): when the upstream chat-completion call raises, the
relay answers HTTP 500 with body `{"error": "An error occurred while
processing your request."}` (line 71), makes exactly one upstream call (no
retry), and returns the process state unchanged. -/
theorem claim9_chat_error (st : AppState)
    (upstream : List (String × String) → Except String (List (Option String)))
    (req : ChatRequest) (e : String)
    (h : upstream (chatMessages req.message) = Except.error e) :
    groq_webhook st upstream req =
      (HttpResponse.json 500 [("error", "An error occurred while processing your request.")],
       1, st) := by
  unfold groq_webhook
  rw [h]

/-- Claim C9, witness: a failing upstream on a concrete request and state. -/
theorem claim9_chat_error_witness :
    groq_webhook ⟨"gsk_test", "http://localhost:3000"⟩ (fun _ => Except.error "boom")
      ⟨"s1", "Hello"⟩ =
      (HttpResponse.json 500 [("error", "An error occurred while processing your request.")],
       1, ⟨"gsk_test", "http://localhost:3000"⟩) :=
  claim9_chat_error _ _ _ "boom" rfl

/-- Claim C10 (confirmed): every record the extractor emits has a non-empty
timings list — when neither a frequency key nor an explicit clock time
matched, lines 249-251 substitute the default `["08:00"]`, so an empty list
never reaches the output. -/
theorem claim10_timings_nonempty (lines : List (List Char)) (r : MedicationRecord)
    (hmem : r ∈ extractFromLines lines) : r.timings ≠ [] := by
  unfold extractFromLines at hmem
  rw [List.mem_filterMap] at hmem
  obtain ⟨l, _, hl⟩ := hmem
  rw [extractLine_timings hl]
  exact computeTimes_ne_nil (trimList l)

/-- Claim C10, witness: the record of a concrete one-line text has non-empty
timings. -/
theorem claim10_timings_nonempty_witness :
    (⟨"Paracetamol", "500mg", ["08:00"]⟩ : MedicationRecord).timings ≠ [] :=
  claim10_timings_nonempty ["Tab Paracetamol 500mg".toList] _ (by decide)
